import Mathlib

/-!
Shallow embedding of the Near-Earth-Objects repository core
(`src/models.py`, `src/database.py`, `src/filters.py`, and the
close-approach row handling of `src/extract.py`).

Python's dynamically typed attributes are modelled with small inductive
value types exactly where the source stores values of more than one
runtime type (a `CloseApproach.time` that may be a datetime or the
string sentinel produced by `extract.load_approaches`, the
`NearEarthObject.hazardous` attribute that `__str__` overwrites with a
string, and the `CloseApproach.neo` attribute that starts out holding
the designation string and is later replaced by an object reference).
Object references across the NEO/approach two-way graph are modelled
arena-style: the database owns flat lists and references are indices
into them.  Exceptions raised by the Python code are modelled with
`Except PyErr`.  Timestamps are minute ordinals (`Nat`); `.date()`
truncation is division by 1440, the number of minutes in a day.
Float quantities (distance, velocity, diameter) are modelled as `ℚ`;
the code only ever compares them, never computes with them.
-/

namespace NEOsrc

/-- A Python runtime error, as far as the embedded code can raise one. -/
inductive PyErr where
  | assertionError (msg : String)
  | attributeError
  | nameError
  | typeError
  | unsupportedCriterion
deriving DecidableEq

/-- A runtime value appearing as a filter reference value or as the
result of a filter getter: a calendar date (day ordinal), a float
(modelled as `ℚ`), a boolean, or a string. -/
inductive Value where
  | vdate (d : Nat)
  | vnum (q : ℚ)
  | vbool (b : Bool)
  | vstr (s : String)
deriving DecidableEq

/-- The runtime value of `CloseApproach.time`: a datetime (minute
ordinal), a string (the sentinel `extract.load_approaches` substitutes
for a missing time), or Python's `None`. -/
inductive TimeVal where
  | dt (t : Nat)
  | s (x : String)
  | none_
deriving DecidableEq

/-- The runtime value of `CloseApproach.neo`: Python `None`, a string
(`models.py` line 164 initialises it to `self._designation`), or a
reference to an NEO (an index into the database's NEO list). -/
inductive NeoRef where
  | none_
  | s (x : String)
  | idx (i : Nat)
deriving DecidableEq

/-- `models.py` `NearEarthObject`.  `approaches` holds indices into the
database's approach list (back-references).  `hazardous` is a `Value`
because `__str__` (lines 103-106) overwrites the boolean with a string. -/
structure NearEarthObject where
  designation : String
  name : Option String
  diameter : ℚ
  hazardous : Value
  approaches : List Nat
deriving DecidableEq

/-- `models.py` `CloseApproach`.  The field `designation` embeds the
source's `_designation` attribute. -/
structure CloseApproach where
  designation : String
  time : TimeVal
  distance : ℚ
  velocity : ℚ
  neo : NeoRef
deriving DecidableEq

/-- `models.py` lines 37-66, `NearEarthObject.__init__`: the designation
and diameter have passed their `isinstance` assertions (the embedding is
typed, so they always do); `name` and `hazardous` carry no assertion in
the source; `approaches` starts empty. -/
def neoInit (designation : String) (name : Option String) (diameter : ℚ)
    (hazardous : Bool) : NearEarthObject :=
  { designation := designation, name := name, diameter := diameter,
    hazardous := .vbool hazardous, approaches := [] }

/-- `models.py` lines 131-164, `CloseApproach.__init__`: after storing
`self.time = time` the constructor asserts `isinstance(self.time,
datetime.datetime)`, so any non-datetime time (the extractor's string
sentinel, or the default `None`) raises an `AssertionError`.  The final
line sets `self.neo = self._designation` (a string, not `None`). -/
def closeApproachInit (design : String) (time : TimeVal) (distance velocity : ℚ) :
    Except PyErr CloseApproach :=
  match time with
  | .dt t =>
      .ok { designation := design, time := .dt t, distance := distance,
            velocity := velocity, neo := .s design }
  | _ => .error (.assertionError "time must be a datetime")

/-- `extract.py` lines 109-112 of `load_approaches`: a missing (`None`)
time field is replaced by the string sentinel, otherwise the value is
parsed into a datetime (`cd_to_datetime`, modelled as the identity on
minute ordinals). -/
def timeFromSource (raw : Option Nat) : TimeVal :=
  match raw with
  | none => .s "Time Unknown to NASA"
  | some t => .dt t

/-- Python `dict` assignment `d[k] = v`: replace the value of an
existing key in place, otherwise append the new key. -/
def dictSet (d : List (String × Nat)) (k : String) (v : Nat) :
    List (String × Nat) :=
  if d.any (fun p => p.1 == k) then
    d.map (fun p => if p.1 == k then (k, v) else p)
  else d ++ [(k, v)]

/-- Python `d.get(k, None)`. -/
def dictGet (d : List (String × Nat)) (k : String) : Option Nat :=
  (d.find? (fun p => p.1 == k)).map (fun p => p.2)

/-- `database.py` `NEODatabase` state: the two entity lists and the two
lookup dictionaries (dictionary values are indices into `neos`). -/
structure NEODatabase where
  neos : List NearEarthObject
  approaches : List CloseApproach
  designation_dict : List (String × Nat)
  name_dict : List (String × Nat)
deriving DecidableEq

/-- `database.py` lines 23-82, `NEODatabase.__init__`, translated
faithfully, loop-variable leak included.  The first loop fills both
dictionaries from the NEOs (the `neo.designation is not None` guard is
always true for constructed NEOs, whose designation is a string).  The
second loop runs over the approaches but keeps using the variable `neo`,
which still holds the LAST element of `neos`: it re-points the
designation dictionary entry for `ca._designation` at that last NEO,
sets `ca.neo` to that last NEO whenever `ca.neo` is not `None` (it never
is: the `CloseApproach` constructor stored the designation string), and
appends every approach to that last NEO's `approaches` list.  If `neos`
is empty while `approaches` is not, the name `neo` is unbound and Python
raises a `NameError`. -/
def NEODatabase.init (neos : List NearEarthObject)
    (approaches : List CloseApproach) : Except PyErr NEODatabase :=
  let dd0 := neos.enum.foldl (fun d p => dictSet d p.2.designation p.1) []
  let nd := neos.enum.foldl (fun d p =>
    match p.2.name with
    | some nm => dictSet d nm p.1
    | none => d) []
  match approaches with
  | [] => .ok { neos := neos, approaches := [], designation_dict := dd0,
                name_dict := nd }
  | _ :: _ =>
    match neos.length with
    | 0 => .error .nameError
    | Nat.succ m =>
      match neos[m]? with
      | none => .error .nameError
      | some lastNeo =>
        let dd1 := approaches.foldl (fun d ca => dictSet d ca.designation m) dd0
        let approaches1 := approaches.map (fun ca =>
          if ca.neo == NeoRef.none_ then ca else { ca with neo := .idx m })
        let neos1 := neos.set m
          { lastNeo with
            approaches := lastNeo.approaches ++ List.range approaches.length }
        .ok { neos := neos1, approaches := approaches1,
              designation_dict := dd1, name_dict := nd }

/-- Python `str.upper`: every character upper-cased. -/
def pyUpper (s : String) : String :=
  String.mk (s.data.map Char.toUpper)

/-- `database.py` lines 85-106, `NEODatabase.get_neo_by_designation`:
upper-cases the query string, then `dict.get` with default `None`. -/
def NEODatabase.get_neo_by_designation (db : NEODatabase)
    (designation : String) : Option NearEarthObject :=
  (dictGet db.designation_dict (pyUpper designation)).bind
    (fun i => db.neos[i]?)

/-- Python `str.capitalize`: first character upper-cased, the rest
lower-cased. -/
def pyCapitalize (s : String) : String :=
  match s.data with
  | [] => ""
  | c :: cs => String.mk (c.toUpper :: cs.map Char.toLower)

/-- `database.py` lines 108-132, `NEODatabase.get_neo_by_name`:
capitalizes the query string, then `dict.get` with default `None`. -/
def NEODatabase.get_neo_by_name (db : NEODatabase) (name : String) :
    Option NearEarthObject :=
  (dictGet db.name_dict (pyCapitalize name)).bind (fun i => db.neos[i]?)

/-- `get_neo_by_designation` called with a dynamically typed argument:
passing `None` makes `designation.upper()` raise an `AttributeError`
before any lookup happens. -/
def NEODatabase.get_neo_by_designation_dyn (db : NEODatabase)
    (designation : Option String) : Except PyErr (Option NearEarthObject) :=
  match designation with
  | none => .error .attributeError
  | some s => .ok (db.get_neo_by_designation s)

/-- `get_neo_by_name` called with a dynamically typed argument: passing
`None` makes `name.capitalize()` raise an `AttributeError` before any
lookup happens. -/
def NEODatabase.get_neo_by_name_dyn (db : NEODatabase)
    (name : Option String) : Except PyErr (Option NearEarthObject) :=
  match name with
  | none => .error .attributeError
  | some s => .ok (db.get_neo_by_name s)

/-- The concrete class of an `AttributeFilter` (`filters.py`): either
the base class itself (whose `get` raises `UnsupportedCriterionError`,
lines 59-69) or one of the five concrete subclasses (lines 83-146). -/
inductive FKind where
  | base
  | date
  | distance
  | velocity
  | diameter
  | hazardous
deriving DecidableEq

/-- The comparator passed to an `AttributeFilter`: `operator.eq`,
`operator.le`, or `operator.ge`. -/
inductive Cmpr where
  | eq
  | le
  | ge
deriving DecidableEq

/-- `filters.py` lines 26-72, `AttributeFilter` and its subclasses: the
triple of concrete class, comparator `op`, and reference `value`. -/
structure AttributeFilter where
  kind : FKind
  op : Cmpr
  value : Value
deriving DecidableEq

/-- Python string `<=`, used when a comparator meets two strings:
lexicographic on characters. -/
def pyStrLe : List Char → List Char → Bool
  | [], _ => true
  | _ :: _, [] => false
  | c :: cs, d :: ds => if c = d then pyStrLe cs ds else decide (c < d)

/-- Python's `op(x, value)` for the three comparators in use.  `==` on
mismatched runtime types is `False`; `<=` / `>=` on mismatched types
raise a `TypeError`.  (The Python coercion `True == 1.0` is not
modelled; no embedded call path compares a boolean with a number.) -/
def applyCmp (op : Cmpr) (x y : Value) : Except PyErr Bool :=
  match op with
  | .eq => .ok (decide (x = y))
  | .le =>
    match x, y with
    | .vnum a, .vnum b => .ok (decide (a ≤ b))
    | .vdate a, .vdate b => .ok (decide (a ≤ b))
    | .vbool a, .vbool b => .ok (!a || b)
    | .vstr a, .vstr b => .ok (pyStrLe a.data b.data)
    | _, _ => .error .typeError
  | .ge =>
    match x, y with
    | .vnum a, .vnum b => .ok (decide (b ≤ a))
    | .vdate a, .vdate b => .ok (decide (b ≤ a))
    | .vbool a, .vbool b => .ok (!b || a)
    | .vstr a, .vstr b => .ok (pyStrLe b.data a.data)
    | _, _ => .error .typeError

/-- The `get` classmethod of each filter class (`filters.py` lines
59-69 and 83-146).  The base class raises `UnsupportedCriterionError`.
`DateFilter` returns `approach.time.date()` (an `AttributeError` when
`time` holds the string sentinel or `None`).  `DistanceFilter` and
`VelocityFilter` read fields of the approach itself.  `DiameterFilter`
and `HazardousFilter` dereference `approach.neo` (an `AttributeError`
when `neo` still holds a string or `None` instead of an NEO). -/
def filterGet (neos : List NearEarthObject) (k : FKind) (a : CloseApproach) :
    Except PyErr Value :=
  match k with
  | .base => .error .unsupportedCriterion
  | .date =>
    match a.time with
    | .dt t => .ok (.vdate (t / 1440))
    | _ => .error .attributeError
  | .distance => .ok (.vnum a.distance)
  | .velocity => .ok (.vnum a.velocity)
  | .diameter =>
    match a.neo with
    | .idx i =>
      match neos[i]? with
      | some n => .ok (.vnum n.diameter)
      | none => .error .attributeError
    | _ => .error .attributeError
  | .hazardous =>
    match a.neo with
    | .idx i =>
      match neos[i]? with
      | some n => .ok n.hazardous
      | none => .error .attributeError
    | _ => .error .attributeError

/-- `filters.py` lines 55-57, `AttributeFilter.__call__`:
`self.op(self.get(approach), self.value)`. -/
def evalAttributeFilter (neos : List NearEarthObject) (f : AttributeFilter)
    (a : CloseApproach) : Except PyErr Bool :=
  match filterGet neos f.kind a with
  | .error e => .error e
  | .ok x => applyCmp f.op x f.value

/-- `database.py` line 158: `flag = False in map(lambda x: x(approach),
filters)` — `True` exactly when some filter evaluates to `False`,
short-circuiting left to right (the first raised exception propagates). -/
def queryFlag (neos : List NearEarthObject) (filters : List AttributeFilter)
    (a : CloseApproach) : Except PyErr Bool :=
  match filters with
  | [] => .ok false
  | f :: fs =>
    match evalAttributeFilter neos f a with
    | .error e => .error e
    | .ok b => if b then queryFlag neos fs a else .ok true

/-- `database.py` lines 134-162, `NEODatabase.query`, with the generator
run to completion: an approach is yielded exactly when its `flag` is
`True`, i.e. when at least one filter evaluates to `False` on it. -/
def queryList (neos : List NearEarthObject) (filters : List AttributeFilter) :
    List CloseApproach → Except PyErr (List CloseApproach)
  | [] => .ok []
  | a :: rest =>
    match queryFlag neos filters a with
    | .error e => .error e
    | .ok flag =>
      match queryList neos filters rest with
      | .error e => .error e
      | .ok tail => .ok (if flag then a :: tail else tail)

/-- `NEODatabase.query` applied to the database's approach list. -/
def NEODatabase.query (db : NEODatabase) (filters : List AttributeFilter) :
    Except PyErr (List CloseApproach) :=
  queryList db.neos filters db.approaches

/-- One guarded append of `create_filters` (`filters.py` lines 204-232):
`if opt is not None: filters.append(mk(opt))`. -/
def appIf {α : Type} (fs : List AttributeFilter) (o : Option α)
    (mk : α → AttributeFilter) : List AttributeFilter :=
  match o with
  | some v => fs ++ [mk v]
  | none => fs

/-- `filters.py` lines 148-235, `create_filters`: starting from an empty
list, conditionally append one filter per non-`None` option, in the
source's order (`start_date`, `date`, `end_date`, `distance_min`,
`distance_max`, `velocity_min`, `velocity_max`, `diameter_min`,
`diameter_max`, `hazardous`). -/
def create_filters (date start_date end_date : Option Nat)
    (distance_min distance_max velocity_min velocity_max
      diameter_min diameter_max : Option ℚ)
    (hazardous : Option Bool) : List AttributeFilter :=
  appIf (appIf (appIf (appIf (appIf (appIf (appIf (appIf (appIf (appIf []
    start_date (fun v => ⟨.date, .ge, .vdate v⟩))
    date (fun v => ⟨.date, .eq, .vdate v⟩))
    end_date (fun v => ⟨.date, .le, .vdate v⟩))
    distance_min (fun v => ⟨.distance, .ge, .vnum v⟩))
    distance_max (fun v => ⟨.distance, .le, .vnum v⟩))
    velocity_min (fun v => ⟨.velocity, .ge, .vnum v⟩))
    velocity_max (fun v => ⟨.velocity, .le, .vnum v⟩))
    diameter_min (fun v => ⟨.diameter, .ge, .vnum v⟩))
    diameter_max (fun v => ⟨.diameter, .le, .vnum v⟩))
    hazardous (fun v => ⟨.hazardous, .eq, .vbool v⟩)

/-- `filters.py` lines 238-258, `limit`: `if n in [0, None]` the
iterator passes through unchanged (`islice(iterator, None)`), otherwise
`islice(iterator, n)` yields at most the first `n` items. -/
def limit {α : Type} (s : List α) (n : Option Nat) : List α :=
  match n with
  | none => s
  | some 0 => s
  | some m => s.take m

/-- `models.py` lines 68-78, `NearEarthObject.fullname`. -/
def NearEarthObject.fullname (n : NearEarthObject) : String :=
  match n.name with
  | none => n.designation
  | some nm => n.designation ++ " (" ++ nm ++ ")"

/-- `models.py` lines 94-109, `NearEarthObject.__str__`: before
formatting, it ASSIGNS `self.hazardous` a descriptive string (replacing
the boolean), then interpolates the mutated attributes.  The embedding
returns the produced string together with the post-call object. -/
def NearEarthObject.toStr (n : NearEarthObject) : String × NearEarthObject :=
  let n1 :=
    if n.hazardous = .vbool true then
      { n with hazardous := .vstr "IS hazardous" }
    else
      { n with hazardous := .vstr "is NOT hazardous" }
  let hazTxt := match n1.hazardous with
    | .vstr s => s
    | _ => ""
  ("The NearEarthObject(NEO), " ++ n1.fullname ++ ", has a diameter of "
      ++ toString n1.diameter ++ " au and " ++ hazTxt ++ "!", n1)

/-! Concrete entities used to evaluate the embedded code on explicit
inputs.  Each mirrors what the source constructors produce: a fresh NEO
has an empty `approaches` list and a boolean `hazardous`; a fresh
approach carries its designation string in `neo`. -/

/-- NEO with designation `433`, named `Eros`, as `neoInit` builds it. -/
def neo433 : NearEarthObject := ⟨"433", some "Eros", 17, .vbool false, []⟩

/-- NEO with designation `719`, named `Albert`, as `neoInit` builds it. -/
def neo719 : NearEarthObject := ⟨"719", some "Albert", 2, .vbool false, []⟩

/-- A close approach of NEO `433`, as `closeApproachInit` builds it. -/
def ca433 : CloseApproach := ⟨"433", .dt 0, 1, 5, .s "433"⟩

/-- NEO whose name `AB` has an interior capital letter. -/
def neoAB : NearEarthObject := ⟨"X1", some "AB", 1, .vbool false, []⟩

/-- The database built from no NEOs and no approaches. -/
def emptyDB : NEODatabase := ⟨[], [], [], []⟩

/-- A hazardous NEO (hazardous flag `True`), as `neoInit` builds it. -/
def neoHaz : NearEarthObject := ⟨"433", some "Eros", 17, .vbool true, []⟩

/-- An already-linked NEO/approach pair for exercising the filters. -/
def neoW : NearEarthObject := ⟨"433", some "Eros", 17, .vbool false, [0]⟩

/-- A close approach whose `neo` reference resolves to `neoW`. -/
def caW : CloseApproach := ⟨"433", .dt 2880, 1, 5, .idx 0⟩

/-- Claim C1 (code_bug evidence): on a database holding exactly one
close approach, `query` with the empty filter collection yields NO
approaches — `False in []` is `False`, so the yield guard fails for
every approach — although the claim (and the method's own docstring,
`database.py` lines 140-141) requires every approach to be produced
exactly once.  The third conjunct shows the inversion: a filter the
approach FAILS (distance at least 1000 when the distance is 1) makes
`query` yield it. -/
theorem query_empty_filters_yields_nothing :
    (NEODatabase.init [neo433] [ca433]).bind (fun db => db.query []) = .ok []
    ∧ (NEODatabase.init [neo433] [ca433]).map (fun db => db.approaches.length)
        = .ok 1
    ∧ (NEODatabase.init [neo433] [ca433]).bind
        (fun db => db.query [⟨.distance, .ge, .vnum 1000⟩])
        = .ok [{ ca433 with neo := .idx 0 }] :=
  ⟨rfl, rfl, rfl⟩

/-- Claim C2 (code_bug evidence): linking `[neo433, neo719]` with the
single approach of designation `433` resolves that approach's `neo`
reference to index 1 — the NEO `719`, not the matching NEO `433` — and
appends it to `719`'s approach list while `433`'s list stays empty: the
second `__init__` loop keeps using the leaked loop variable `neo`, which
still denotes the last NEO of the first loop. -/
theorem init_links_all_approaches_to_last_neo :
    (NEODatabase.init [neo433, neo719] [ca433]).map (fun db =>
      (db.approaches.map (fun a => a.neo),
       db.neos.map (fun n => (n.designation, n.approaches))))
      = .ok ([NeoRef.idx 1], [("433", []), ("719", [0])])
    ∧ ca433.designation = "433" :=
  ⟨rfl, rfl⟩

/-- Claim C3 (code_bug evidence): after constructing the database from
`[neo433, neo719]` and one approach of designation `433`, looking up
designation `433` returns the NEO whose designation is `719`: the
second `__init__` loop overwrote the designation dictionary entry for
`433` with the leaked last NEO. -/
theorem get_neo_by_designation_returns_wrong_neo :
    (NEODatabase.init [neo433, neo719] [ca433]).map (fun db =>
      (db.get_neo_by_designation "433").map (fun n => n.designation))
      = .ok (some "719")
    ∧ neo433.designation = "433" ∧ neo719.designation = "719" :=
  ⟨rfl, rfl, rfl⟩

/-- Claim C4 (code_bug evidence): the database indexes the NEO under its
stored name `AB`, but `get_neo_by_name` capitalizes the query — turning
`AB` into `Ab` — so looking up the NEO's own name misses and returns
`None`, against the method's docstring promise of exact matching. -/
theorem get_neo_by_name_misses_own_name :
    (NEODatabase.init [neoAB] []).map (fun db => db.get_neo_by_name "AB")
      = .ok none
    ∧ neoAB.name = some "AB" :=
  ⟨rfl, rfl⟩

/-- Claim C5 counterexample: calling `get_neo_by_name` (or
`get_neo_by_designation`) with an absent (`None`) argument does not
yield the not-found value — `None.capitalize()` / `None.upper()` raises
an `AttributeError` — refuting the claim that such a call always
returns the no-match value without error. -/
theorem get_neo_by_name_none_raises :
    NEODatabase.init [] [] = .ok emptyDB
    ∧ emptyDB.get_neo_by_name_dyn none = .error .attributeError
    ∧ emptyDB.get_neo_by_designation_dyn none = .error .attributeError :=
  ⟨rfl, rfl, rfl⟩

/-- Claim C5 (amended): for every STRING query, a lookup miss on
designation or name returns the explicit no-match value `None` and
raises nothing — `dict.get` with a `None` default is total — but a
`None` argument raises an `AttributeError` before the lookup happens. -/
theorem lookup_miss_silent (db : NEODatabase) (s : String)
    (hd : dictGet db.designation_dict (pyUpper s) = none)
    (hn : dictGet db.name_dict (pyCapitalize s) = none) :
    db.get_neo_by_designation s = none
    ∧ db.get_neo_by_name s = none
    ∧ db.get_neo_by_designation_dyn (some s) = .ok (db.get_neo_by_designation s)
    ∧ db.get_neo_by_name_dyn (some s) = .ok (db.get_neo_by_name s)
    ∧ db.get_neo_by_designation_dyn none = .error .attributeError
    ∧ db.get_neo_by_name_dyn none = .error .attributeError := by
  refine ⟨?_, ?_, rfl, rfl, rfl, rfl⟩
  · simp [NEODatabase.get_neo_by_designation, hd]
  · simp [NEODatabase.get_neo_by_name, hn]

/-- Claim C5 witness: the amended statement evaluated on the empty
database and the query string `Ceres`. -/
theorem lookup_miss_silent_concrete :
    emptyDB.get_neo_by_designation "Ceres" = none
    ∧ emptyDB.get_neo_by_name "Ceres" = none
    ∧ emptyDB.get_neo_by_designation_dyn (some "Ceres")
        = .ok (emptyDB.get_neo_by_designation "Ceres")
    ∧ emptyDB.get_neo_by_name_dyn (some "Ceres")
        = .ok (emptyDB.get_neo_by_name "Ceres")
    ∧ emptyDB.get_neo_by_designation_dyn none = .error .attributeError
    ∧ emptyDB.get_neo_by_name_dyn none = .error .attributeError :=
  lookup_miss_silent emptyDB "Ceres" rfl rfl

/-- Claim C6: for every sequence and every positive bound `n`, `limit`
yields exactly the first `n` items (fewer when the sequence is shorter)
in the same relative order — `List.take n` — while a bound of `0` or
`None` passes the sequence through unchanged. -/
theorem limit_spec {α : Type} (s : List α) (n : Nat) (h : 0 < n) :
    limit s (some n) = s.take n ∧ limit s (some 0) = s ∧ limit s none = s := by
  refine ⟨?_, rfl, rfl⟩
  cases n with
  | zero => exact absurd h (Nat.lt_irrefl 0)
  | succ m => rfl

/-- Claim C6 witness: `limit` evaluated on `[1, 2, 3, 4]` with bounds
`2`, `0` and `None`. -/
theorem limit_spec_concrete :
    limit ([1, 2, 3, 4] : List Nat) (some 2) = [1, 2]
    ∧ limit ([1, 2, 3, 4] : List Nat) (some 0) = [1, 2, 3, 4]
    ∧ limit ([1, 2, 3, 4] : List Nat) none = [1, 2, 3, 4] := by
  have h := limit_spec ([1, 2, 3, 4] : List Nat) 2 (by decide)
  exact ⟨h.1.trans rfl, h.2.1, h.2.2⟩

/-- Helper: one guarded append of `create_filters` equals appending the
option's contents. -/
theorem appIf_eq {α : Type} (fs : List AttributeFilter) (o : Option α)
    (mk : α → AttributeFilter) : appIf fs o mk = fs ++ o.toList.map mk := by
  cases o <;> simp [appIf]

/-- Claim C7: each present option of `create_filters` contributes
exactly one filter of the matching kind and comparator direction (`min`
options use `ge`, `max` options use `le`, `date` and `hazardous` use
`eq`); each absent (`None`) option contributes nothing.  Instantiating
`hazardous` at `some false` appends the equality filter against
`False`, while `none` appends no hazardous filter at all. -/
theorem create_filters_spec (date start_date end_date : Option Nat)
    (distance_min distance_max velocity_min velocity_max
      diameter_min diameter_max : Option ℚ) (hazardous : Option Bool) :
    create_filters date start_date end_date distance_min distance_max
        velocity_min velocity_max diameter_min diameter_max hazardous =
      start_date.toList.map (fun v => ⟨.date, .ge, .vdate v⟩)
      ++ date.toList.map (fun v => ⟨.date, .eq, .vdate v⟩)
      ++ end_date.toList.map (fun v => ⟨.date, .le, .vdate v⟩)
      ++ distance_min.toList.map (fun v => ⟨.distance, .ge, .vnum v⟩)
      ++ distance_max.toList.map (fun v => ⟨.distance, .le, .vnum v⟩)
      ++ velocity_min.toList.map (fun v => ⟨.velocity, .ge, .vnum v⟩)
      ++ velocity_max.toList.map (fun v => ⟨.velocity, .le, .vnum v⟩)
      ++ diameter_min.toList.map (fun v => ⟨.diameter, .ge, .vnum v⟩)
      ++ diameter_max.toList.map (fun v => ⟨.diameter, .le, .vnum v⟩)
      ++ hazardous.toList.map (fun v => ⟨.hazardous, .eq, .vbool v⟩) := by
  simp [create_filters, appIf_eq, List.append_assoc]

/-- Helper: the comparator application never raises the
unsupported-criterion condition (it returns a boolean or, on mismatched
runtime types with `le`/`ge`, a `TypeError`). -/
theorem applyCmp_ne_unsupported (op : Cmpr) (x y : Value) :
    applyCmp op x y ≠ .error .unsupportedCriterion := by
  cases op <;> cases x <;> cases y <;> simp [applyCmp]

/-- Claim C8: invoking a filter whose getter is the base
`AttributeFilter.get` raises the distinct `UnsupportedCriterionError`;
no concrete filter kind ever raises it (even when a dangling `neo`
reference or a non-datetime time raises an `AttributeError`, a
different condition); and each of the five concrete kinds returns the
comparison `op(get(approach), value)` — on the approach's date
(timestamp truncated to a day), distance, velocity, linked NEO's
diameter, and linked NEO's hazardous flag respectively. -/
theorem attribute_filter_eval_spec (neos : List NearEarthObject) (op : Cmpr)
    (v : Value) (a : CloseApproach) :
    evalAttributeFilter neos ⟨.base, op, v⟩ a = .error .unsupportedCriterion
    ∧ (∀ k : FKind, k ≠ .base → ∀ e : PyErr,
        evalAttributeFilter neos ⟨k, op, v⟩ a = .error e →
        e ≠ .unsupportedCriterion)
    ∧ evalAttributeFilter neos ⟨.distance, op, v⟩ a
        = applyCmp op (.vnum a.distance) v
    ∧ evalAttributeFilter neos ⟨.velocity, op, v⟩ a
        = applyCmp op (.vnum a.velocity) v
    ∧ (∀ t, a.time = .dt t →
        evalAttributeFilter neos ⟨.date, op, v⟩ a
          = applyCmp op (.vdate (t / 1440)) v)
    ∧ (∀ i n, a.neo = .idx i → neos[i]? = some n →
        evalAttributeFilter neos ⟨.diameter, op, v⟩ a
            = applyCmp op (.vnum n.diameter) v
        ∧ evalAttributeFilter neos ⟨.hazardous, op, v⟩ a
            = applyCmp op n.hazardous v) := by
  refine ⟨rfl, ?_, rfl, rfl, ?_, ?_⟩
  · intro k hk e he heq
    subst heq
    cases k with
    | base => exact hk rfl
    | date =>
      cases ht : a.time with
      | dt t =>
        simp only [evalAttributeFilter, filterGet, ht] at he
        exact applyCmp_ne_unsupported _ _ _ he
      | s x => simp [evalAttributeFilter, filterGet, ht] at he
      | none_ => simp [evalAttributeFilter, filterGet, ht] at he
    | distance =>
      simp only [evalAttributeFilter, filterGet] at he
      exact applyCmp_ne_unsupported _ _ _ he
    | velocity =>
      simp only [evalAttributeFilter, filterGet] at he
      exact applyCmp_ne_unsupported _ _ _ he
    | diameter =>
      cases hn : a.neo with
      | idx i =>
        cases hg : neos[i]? with
        | some n =>
          simp only [evalAttributeFilter, filterGet, hn, hg] at he
          exact applyCmp_ne_unsupported _ _ _ he
        | none => simp [evalAttributeFilter, filterGet, hn, hg] at he
      | none_ => simp [evalAttributeFilter, filterGet, hn] at he
      | s x => simp [evalAttributeFilter, filterGet, hn] at he
    | hazardous =>
      cases hn : a.neo with
      | idx i =>
        cases hg : neos[i]? with
        | some n =>
          simp only [evalAttributeFilter, filterGet, hn, hg] at he
          exact applyCmp_ne_unsupported _ _ _ he
        | none => simp [evalAttributeFilter, filterGet, hn, hg] at he
      | none_ => simp [evalAttributeFilter, filterGet, hn] at he
      | s x => simp [evalAttributeFilter, filterGet, hn] at he
  · intro t ht
    simp [evalAttributeFilter, filterGet, ht]
  · intro i n hn hg
    constructor <;> simp [evalAttributeFilter, filterGet, hn, hg]

/-- Claim C8 witness: the filter evaluation contract applied to the
linked pair `neoW`/`caW` with the comparator `ge` and reference value
`10`. -/
theorem attribute_filter_eval_concrete :
    evalAttributeFilter [neoW] ⟨.base, .ge, .vnum 10⟩ caW
      = .error .unsupportedCriterion
    ∧ evalAttributeFilter [neoW] ⟨.diameter, .ge, .vnum 10⟩ caW
        = applyCmp .ge (.vnum neoW.diameter) (.vnum 10)
    ∧ evalAttributeFilter [neoW] ⟨.date, .ge, .vnum 10⟩ caW
        = applyCmp .ge (.vdate (2880 / 1440)) (.vnum 10) := by
  have h := attribute_filter_eval_spec [neoW] .ge (.vnum 10) caW
  exact ⟨h.1, (h.2.2.2.2.2 0 neoW rfl rfl).1, h.2.2.2.2.1 2880 rfl⟩

/-- Claim C9 (code_bug evidence): when the source row lacks a time,
`extract.load_approaches` substitutes the string sentinel
`Time Unknown to NASA`, but the `CloseApproach` constructor asserts the
time is a datetime, so constructing from such a row raises an
`AssertionError` instead of accepting the sentinel.  A parsed timestamp
is accepted and every field is validated eagerly. -/
theorem close_approach_rejects_time_sentinel :
    timeFromSource none = .s "Time Unknown to NASA"
    ∧ closeApproachInit "433" (timeFromSource none) 1 5
        = .error (.assertionError "time must be a datetime")
    ∧ closeApproachInit "433" (timeFromSource (some 1000)) 1 5
        = .ok ⟨"433", .dt 1000, 1, 5, .s "433"⟩ :=
  ⟨rfl, rfl, rfl⟩

/-- Claim C10 (code_bug evidence): producing the human-readable display
string of a hazardous NEO overwrites its `hazardous` attribute with the
string `IS hazardous`, so the attribute no longer holds its original
boolean value and the object differs from the one before the call. -/
theorem neo_str_mutates_hazardous :
    neoHaz.hazardous = .vbool true
    ∧ (NearEarthObject.toStr neoHaz).2.hazardous = .vstr "IS hazardous"
    ∧ (NearEarthObject.toStr neoHaz).2 ≠ neoHaz := by
  refine ⟨rfl, rfl, ?_⟩
  intro h
  have h2 := congrArg NearEarthObject.hazardous h
  simp [NearEarthObject.toStr, neoHaz] at h2

end NEOsrc
